import Mathlib

/-!
Shallow embedding of `bosch_shc/__init__.py`.

This file embeds the Bosch Smart Home Controller integration module
(`src/bosch_shc/__init__.py`) into Lean 4 and proves the specification
claims about it.

Modelling conventions:

* The Home Assistant runtime state that the module reads or mutates
  (`hass.data[DOMAIN]`, the event bus, the device registry, the registered
  services, the `EVENT_HOMEASSISTANT_STOP` listeners) is an explicit
  `HassState` record that every operation threads through.
* The external client library `boschshcpy` is opaque: an `SHCSession` is a
  record of the data the module reads from it, and the library-side mutable
  state the module drives (the polling loop, the keypad-callback
  subscriptions, the scenario callback, `session.reset_connection_listener`)
  lives in `HassState` as well.  The claims are all about a single config
  entry, so this session-side state is kept once in `HassState`.
* Python exceptions become `Except` results; blocking library calls are
  recorded in an `Action` trace, distinguishing calls deferred through
  `hass.async_add_executor_job` from direct calls.
* All field values are `String`s; the module never inspects their contents.
-/

namespace BoschSHC

/-- The exception hierarchy of the client library that `async_setup_entry`
catches: `SHCAuthenticationError`, `SHCConnectionError`, `SHCmDNSError`. -/
inductive SHCError where
  | authenticationError
  | connectionError
  | mDNSError
deriving DecidableEq

/-- Python runtime errors the module can hit outside the caught hierarchy. -/
inductive PyError where
  | keyError
  | attributeError
deriving DecidableEq

/-- Outcome of `async_setup_entry`: either the host's retry signal
`ConfigEntryNotReady`, or an uncaught Python error. -/
inductive SetupError where
  | configEntryNotReady
  | pyError (e : PyError)
deriving DecidableEq

/-- The slice of `session.information` the module reads. -/
structure SHCInformation where
  updateState : String
  name : String
  mac_address : String
  version : String
deriving DecidableEq

/-- A controller scenario: a named automation routine with a `trigger`
method.  The `id` field stands for the object identity of the scenario. -/
structure Scenario where
  id : String
  name : String
deriving DecidableEq

/-- A device service of a universal switch; the module only inspects its
`id` (looking for `"Keypad"`).  Service ids are unique within one device in
the client library, so a service is identified by its id. -/
structure DeviceServiceDef where
  id : String
deriving DecidableEq

/-- A universal switch device, with the fields the module reads.  The
`eventtype` and `keyname` fields hold the `.name` of the library enums. -/
structure SHCUniversalSwitch where
  id : String
  name : String
  manufacturer : String
  device_model : String
  parent_device_id : String
  device_services : List DeviceServiceDef
  eventtype : String
  eventtimestamp : String
  keyname : String
deriving DecidableEq

/-- The data the module reads off an `SHCSession` object. -/
structure SHCSession where
  information : SHCInformation
  scenario_names : List String
  scenarios : List Scenario
  universal_switches : List SHCUniversalSwitch
deriving DecidableEq

/-- The slice of a Home Assistant `ConfigEntry` the module uses. -/
structure ConfigEntry where
  entry_id : String
  title : String
deriving DecidableEq

/-- Constant `DOMAIN` from `const.py`.  Modelled from the spec: `const.py` is not
part of the source set; the value is the integration domain name. -/
def DOMAIN : String := "bosch_shc"

/-- Constant `homeassistant.const.ATTR_DEVICE_ID`. -/
def ATTR_DEVICE_ID : String := "device_id"

/-- Constant `homeassistant.const.ATTR_ID`. -/
def ATTR_ID : String := "id"

/-- Constant `homeassistant.const.ATTR_NAME`. -/
def ATTR_NAME : String := "name"

/-- Constant `ATTR_LAST_TIME_TRIGGERED` from `const.py`.  Modelled from the spec:
`const.py` is not part of the source set; only distinctness of the
attribute keys matters. -/
def ATTR_LAST_TIME_TRIGGERED : String := "lastTimeTriggered"

/-- Constant `ATTR_BUTTON` from `const.py`.  Modelled from the spec. -/
def ATTR_BUTTON : String := "button"

/-- Constant `ATTR_CLICK_TYPE` from `const.py`.  Modelled from the spec. -/
def ATTR_CLICK_TYPE : String := "click_type"

/-- Constant `EVENT_BOSCH_SHC_CLICK` from `const.py`.  Modelled from the spec. -/
def EVENT_BOSCH_SHC_CLICK : String := "bosch_shc.event"

/-- Constant `EVENT_BOSCH_SHC_SCENARIO_TRIGGER` from `const.py`.  Modelled from the
spec. -/
def EVENT_BOSCH_SHC_SCENARIO_TRIGGER : String := "bosch_shc.scenario_trigger"

/-- Constant `SERVICE_TRIGGER_SCENARIO` from `const.py`.  Modelled from the spec:
the single service name of the module. -/
def SERVICE_TRIGGER_SCENARIO : String := "trigger_scenario"

/-- Constant `homeassistant.helpers.device_registry.CONNECTION_NETWORK_MAC`. -/
def CONNECTION_NETWORK_MAC : String := "mac"

/-- Function `homeassistant.helpers.device_registry.format_mac`: a host-runtime MAC
normaliser.  Its output shape never matters to the module, so it is kept
abstract as the identity on strings. -/
def format_mac (mac : String) : String := mac

/-- The platform list of the module. -/
def PLATFORMS : List String :=
  ["binary_sensor", "cover", "switch", "sensor", "climate",
   "alarm_control_panel", "light"]

/-- A blocking call into the synchronous client-library API. -/
inductive BlockingCall where
  | shcSessionCtor
  | startPolling
  | stopPolling
  | scenarioTrigger (sc : Scenario)
deriving DecidableEq

/-- How a blocking call is issued: deferred to a worker thread via
`hass.async_add_executor_job`, or directly on the event loop. -/
inductive Action where
  | executorJob (c : BlockingCall)
  | directCall (c : BlockingCall)
deriving DecidableEq

/-- An event fired on the host event bus: event type and payload, the
payload an association list from attribute key to value (`none` encodes
Python `None`). -/
structure BusEvent where
  event_type : String
  data : List (String × Option String)
deriving DecidableEq

/-- An entry of the host device registry, with the fields
`async_get_or_create` is called with plus its generated `id`. -/
structure DeviceEntry where
  id : String
  config_entry_id : String
  connections : List (String × String)
  identifiers : List (String × String)
  manufacturer : Option String
  name : Option String
  model : Option String
  sw_version : Option String
  via_device : Option (String × String)
deriving DecidableEq

/-- A callback registered once for `EVENT_HOMEASSISTANT_STOP`.
`stopPolling` is the `stop_polling` closure of `async_setup_entry`;
`switchStop device_id service` is `SwitchDeviceEventListener._handle_ha_stop`,
characterised by the data its `shutdown` reads: the listener's `_device.id`
and its `_service` as they stand at the end of `__init__` (neither is
mutated afterwards). -/
inductive StopListener where
  | stopPolling
  | switchStop (device_id : String) (service : Option DeviceServiceDef)
deriving DecidableEq

/-- A service registered with `hass.services.async_register`: domain,
service name, and the voluptuous schema.  The schema of
`trigger_scenario` requires the `name` field to be a string contained in a
list of scenario names captured at registration time, kept here as
`schema_names`. -/
structure RegisteredService where
  domain : String
  service : String
  schema_names : List String
deriving DecidableEq

/-- The explicit state of the host runtime and of the library-side mutable
state the module drives. -/
structure HassState where
  /-- `hass.data[DOMAIN]`: config-entry id to stored session. -/
  data : List (String × SHCSession)
  /-- Events fired on `hass.bus`, in order. -/
  bus_events : List BusEvent
  /-- The host device registry. -/
  registry : List DeviceEntry
  /-- Listeners currently registered for `EVENT_HOMEASSISTANT_STOP`. -/
  stop_listeners : List StopListener
  /-- Services registered with `hass.services`. -/
  services : List RegisteredService
  /-- Trace of blocking client-library calls issued by the module. -/
  actions : List Action
  /-- Whether the session's polling loop is running. -/
  polling : Bool
  /-- `session.reset_connection_listener`: whether the remover of the
  `stop_polling` bus listener is stored on the session. -/
  reset_connection_listener : Bool
  /-- The scenario callback subscribed on the session, holding the captured
  controller registry `device_id` (`none` when unsubscribed). -/
  scenario_callback : Option String
  /-- Keypad-callback subscriptions held by device services, keyed by
  (service id, device id): `service.subscribe_callback(device_id, cb)`. -/
  keypad_subscriptions : List (String × String)
deriving DecidableEq

/-- The fresh host state before the module touches it. -/
def HassState.empty : HassState :=
  { data := [], bus_events := [], registry := [], stop_listeners := [],
    services := [], actions := [], polling := false,
    reset_connection_listener := false, scenario_callback := none,
    keypad_subscriptions := [] }

/-- Look up `hass.data[DOMAIN][entry_id]`. -/
def HassState.lookupData (st : HassState) (entry_id : String) :
    Option SHCSession :=
  (st.data.find? (fun p => p.1 == entry_id)).map (·.2)

/-- Assignment `hass.data[DOMAIN][entry.entry_id] = session`. -/
def HassState.storeData (st : HassState) (entry_id : String)
    (session : SHCSession) : HassState :=
  { st with data := (entry_id, session) ::
      st.data.filter (fun p => !(p.1 == entry_id)) }

/-- Append one blocking-call record to the action trace. -/
def HassState.addAction (st : HassState) (a : Action) : HassState :=
  { st with actions := st.actions ++ [a] }

/-- Operation `device_registry.async_get_or_create`: registers a device entry with
the given fields and returns it.  Entry ids are generated fresh from the
registry size. -/
def HassState.async_get_or_create (st : HassState) (config_entry_id : String)
    (connections : List (String × String))
    (identifiers : List (String × String)) (manufacturer : Option String)
    (name : Option String) (model : Option String)
    (sw_version : Option String) (via_device : Option (String × String)) :
    DeviceEntry × HassState :=
  let e : DeviceEntry :=
    { id := "device-" ++ toString st.registry.length,
      config_entry_id := config_entry_id, connections := connections,
      identifiers := identifiers, manufacturer := manufacturer,
      name := name, model := model, sw_version := sw_version,
      via_device := via_device }
  (e, { st with registry := st.registry ++ [e] })

/-- Operation `hass.bus.async_fire(event_type, data)`. -/
def HassState.fireEvent (st : HassState) (event_type : String)
    (data : List (String × Option String)) : HassState :=
  { st with bus_events := st.bus_events ++ [⟨event_type, data⟩] }

/-- Class `SwitchDeviceEventListener`: the fields of the Python object. -/
structure SwitchDeviceEventListener where
  entry : ConfigEntry
  _device : SHCUniversalSwitch
  _service : Option DeviceServiceDef
  device_id : Option String
deriving DecidableEq

/-- The `for service in self._device.device_services` loop of
`SwitchDeviceEventListener.__init__`: for every service whose id is
`"Keypad"` it assigns `self._service` and calls
`service.subscribe_callback(device.id, handler)`.  Returns the final
`_service` and the subscriptions installed, in order. -/
def keypadScan (device : SHCUniversalSwitch) :
    Option DeviceServiceDef × List (String × String) :=
  device.device_services.foldl
    (fun acc s =>
      if s.id == "Keypad" then (some s, acc.2 ++ [(s.id, device.id)])
      else acc)
    (none, [])

/-- Constructor `SwitchDeviceEventListener.__init__`: runs the keypad scan and
registers `_handle_ha_stop` once for `EVENT_HOMEASSISTANT_STOP`. -/
def SwitchDeviceEventListener.init (entry : ConfigEntry)
    (device : SHCUniversalSwitch) (st : HassState) :
    SwitchDeviceEventListener × HassState :=
  let scan := keypadScan device
  let l : SwitchDeviceEventListener :=
    { entry := entry, _device := device, _service := scan.1,
      device_id := none }
  (l, { st with
          keypad_subscriptions := st.keypad_subscriptions ++ scan.2,
          stop_listeners :=
            st.stop_listeners ++ [.switchStop device.id scan.1] })

/-- Method `SwitchDeviceEventListener._async_input_events_handler`.  The fixed set
`SUPPORTED_INPUTS_EVENTS_TYPES` lives in `const.py`, which is not part of
the source set, so it is a parameter here (modelled from the spec: "a
membership check against a fixed set of supported event-type strings"). -/
def SwitchDeviceEventListener._async_input_events_handler
    (SUPPORTED_INPUTS_EVENTS_TYPES : List String)
    (l : SwitchDeviceEventListener) (st : HassState) : HassState :=
  if SUPPORTED_INPUTS_EVENTS_TYPES.contains l._device.eventtype then
    st.fireEvent EVENT_BOSCH_SHC_CLICK
      [(ATTR_DEVICE_ID, l.device_id),
       (ATTR_ID, some l._device.id),
       (ATTR_NAME, some l._device.name),
       (ATTR_LAST_TIME_TRIGGERED, some l._device.eventtimestamp),
       (ATTR_BUTTON, some l._device.keyname),
       (ATTR_CLICK_TYPE, some l._device.eventtype)]
  else
    st

/-- Method `SwitchDeviceEventListener.async_setup`: registers the switch in the
device registry and stores the generated registry id in `device_id`. -/
def SwitchDeviceEventListener.async_setup (l : SwitchDeviceEventListener)
    (st : HassState) : SwitchDeviceEventListener × HassState :=
  let r := st.async_get_or_create l.entry.entry_id []
      [(DOMAIN, l._device.id)] (some l._device.manufacturer)
      (some l._device.name) (some l._device.device_model) none
      (some (DOMAIN, l._device.parent_device_id))
  ({ l with device_id := some r.1.id }, r.2)

/-- Method `SwitchDeviceEventListener.shutdown`:
`self._service.unsubscribe_callback(self._device.id)`.  When `_service` is
still `None` this is an `AttributeError` on `None`. -/
def SwitchDeviceEventListener.shutdown (l : SwitchDeviceEventListener)
    (st : HassState) : Except PyError HassState :=
  match l._service with
  | none => .error .attributeError
  | some svc =>
      .ok { st with keypad_subscriptions := st.keypad_subscriptions.filter (fun p => !(p.1 == svc.id && p.2 == l._device.id)) }

/-- Method `SwitchDeviceEventListener._handle_ha_stop`: logs and calls
`shutdown`. -/
def SwitchDeviceEventListener._handle_ha_stop
    (l : SwitchDeviceEventListener) (st : HassState) :
    Except PyError HassState :=
  l.shutdown st

/-- Run one `EVENT_HOMEASSISTANT_STOP` listener.  The host event bus runs
each listener job separately and logs (rather than propagates) an
exception raised by one of them, so the `AttributeError` of a
`switchStop _ none` listener leaves the state unchanged. -/
def runStopListener (st : HassState) (l : StopListener) : HassState :=
  match l with
  | .stopPolling =>
      { st with actions := st.actions ++ [.executorJob .stopPolling],
                polling := false }
  | .switchStop device_id service =>
      match service with
      | none => st
      | some svc =>
          { st with keypad_subscriptions := st.keypad_subscriptions.filter (fun p => !(p.1 == svc.id && p.2 == device_id)) }

/-- The host firing `EVENT_HOMEASSISTANT_STOP`: every registered
once-listener is removed and run, in registration order. -/
def fire_ha_stop (st : HassState) : HassState :=
  st.stop_listeners.foldl runStopListener { st with stop_listeners := [] }

/-- The `_async_scenario_trigger` callback of `async_setup_entry`, with the
controller registry id it captured. -/
def _async_scenario_trigger (device_id : String) (scenario_id : String)
    (name : String) (last_time_triggered : String) (st : HassState) :
    HassState :=
  st.fireEvent EVENT_BOSCH_SHC_SCENARIO_TRIGGER
    [(ATTR_DEVICE_ID, some device_id),
     (ATTR_ID, some scenario_id),
     (ATTR_NAME, some name),
     (ATTR_LAST_TIME_TRIGGERED, some last_time_triggered)]

/-- Function `register_services`: builds the voluptuous schema from
`hass.data[DOMAIN][entry.entry_id].scenario_names` (a `KeyError` when the
entry is not stored) and registers the single `trigger_scenario`
service. -/
def register_services (entry : ConfigEntry) (st : HassState) :
    Except PyError HassState :=
  match st.lookupData entry.entry_id with
  | none => .error .keyError
  | some session =>
      .ok { st with services := st.services ++ [{ domain := DOMAIN, service := SERVICE_TRIGGER_SCENARIO, schema_names := session.scenario_names }] }

/-- The voluptuous schema of `trigger_scenario`: the `name` field must be a
string contained in the scenario-name list captured at registration. -/
def RegisteredService.schemaAccepts (svc : RegisteredService)
    (name : String) : Bool :=
  svc.schema_names.contains name

/-- Handler `scenario_service_call`: reads the session from `hass.data` at call
time and defers `scenario.trigger` to the executor for every scenario
whose name equals the requested name. -/
def scenario_service_call (entry : ConfigEntry) (name : String)
    (st : HassState) : Except PyError HassState :=
  match st.lookupData entry.entry_id with
  | none => .error .keyError
  | some session =>
      .ok { st with actions := st.actions ++ (session.scenarios.filter (fun sc => sc.name == name)).map (fun sc => Action.executorJob (.scenarioTrigger sc)) }

/-- The `for device in session.device_helper.universal_switches` loop of
`async_setup_entry`: construct each listener and run its `async_setup`. -/
def setupSwitchListeners (entry : ConfigEntry)
    (devices : List SHCUniversalSwitch) (st : HassState) : HassState :=
  devices.foldl
    (fun st device =>
      let r := SwitchDeviceEventListener.init entry device st
      (r.1.async_setup r.2).2)
    st

/-- Function `async_setup_entry`.  Argument `ctor` is the outcome of the deferred
`SHCSession` construction.  Platform forwarding
(`async_forward_entry_setup`) spawns host-side tasks touching no module
state and is not modelled. -/
def async_setup_entry (entry : ConfigEntry)
    (ctor : Except SHCError SHCSession) (st : HassState) :
    HassState × Except SetupError Bool :=
  let st := st.addAction (.executorJob .shcSessionCtor)
  match ctor with
  | .error _ => (st, .error .configEntryNotReady)
  | .ok session =>
      let st := st.storeData entry.entry_id session
      let r := st.async_get_or_create entry.entry_id
          [(CONNECTION_NETWORK_MAC, format_mac session.information.mac_address)]
          [(DOMAIN, session.information.name)] (some "Bosch")
          (some entry.title) (some "SmartHomeController")
          (some session.information.version) none
      let device_id := r.1.id
      let st := r.2
      let st := st.addAction (.executorJob .startPolling)
      let st := { st with polling := true }
      let st := { st with
          stop_listeners := st.stop_listeners ++ [StopListener.stopPolling],
          reset_connection_listener := true }
      let st := { st with scenario_callback := some device_id }
      let st := setupSwitchListeners entry session.universal_switches st
      match register_services entry st with
      | .error e => (st, .error (.pyError e))
      | .ok st => (st, .ok true)

/-- Function `async_unload_entry`.  Argument `unload_results` holds the results of the
gathered `async_forward_entry_unload` calls, one per platform. -/
def async_unload_entry (entry : ConfigEntry) (unload_results : List Bool)
    (st : HassState) : Except PyError (HassState × Bool) :=
  match st.lookupData entry.entry_id with
  | none => .error .keyError
  | some _ =>
      let st1 := { st with scenario_callback := none }
      let st2 :=
        if st1.reset_connection_listener then
          { st1 with
              stop_listeners := st1.stop_listeners.filter (fun l => decide (l ≠ StopListener.stopPolling)),
              reset_connection_listener := false,
              actions := st1.actions ++ [Action.executorJob .stopPolling],
              polling := false }
        else st1
      let unload_ok := unload_results.all id
      let st3 :=
        if unload_ok then
          { st2 with data := st2.data.filter (fun p => !(p.1 == entry.entry_id)) }
        else st2
      .ok (st3, unload_ok)

/-! ## Derived notions used by the verification -/

/-- Whether running stop listener `l` removes subscription `p`. -/
def StopListener.covers (l : StopListener) (p : String × String) : Bool :=
  match l with
  | .stopPolling => false
  | .switchStop _ none => false
  | .switchStop d (some s) => p.1 == s.id && p.2 == d

/-- Every installed keypad subscription is covered by some registered
stop listener. -/
def Covered (st : HassState) : Prop :=
  ∀ p ∈ st.keypad_subscriptions, ∃ l ∈ st.stop_listeners, l.covers p = true

/-- Every recorded blocking call was deferred through
`hass.async_add_executor_job`. -/
def allExecutor (acts : List Action) : Bool :=
  acts.all (fun a => match a with | .executorJob _ => true | .directCall _ => false)

/-- The registry entry `SwitchDeviceEventListener.async_setup` creates for
a switch, when the registry holds `n` entries. -/
def switchDeviceEntry (entry : ConfigEntry) (d : SHCUniversalSwitch)
    (n : Nat) : DeviceEntry :=
  { id := "device-" ++ toString n, config_entry_id := entry.entry_id,
    connections := [], identifiers := [(DOMAIN, d.id)],
    manufacturer := some d.manufacturer, name := some d.name,
    model := some d.device_model, sw_version := none,
    via_device := some (DOMAIN, d.parent_device_id) }

/-- The registry entry `async_setup_entry` creates for the controller,
when the registry holds `n` entries. -/
def controllerDeviceEntry (entry : ConfigEntry) (session : SHCSession)
    (n : Nat) : DeviceEntry :=
  { id := "device-" ++ toString n, config_entry_id := entry.entry_id,
    connections := [(CONNECTION_NETWORK_MAC, format_mac session.information.mac_address)],
    identifiers := [(DOMAIN, session.information.name)],
    manufacturer := some "Bosch", name := some entry.title,
    model := some "SmartHomeController",
    sw_version := some session.information.version, via_device := none }

/-- The state `async_setup_entry` has built just before the
universal-switch loop (session stored, controller registered, polling
started, stop listener and scenario callback installed). -/
def setupPreState (entry : ConfigEntry) (session : SHCSession)
    (st : HassState) : HassState :=
  { st with
      actions := (st.actions ++ [Action.executorJob .shcSessionCtor]) ++ [Action.executorJob .startPolling],
      data := (entry.entry_id, session) :: st.data.filter (fun p => !(p.1 == entry.entry_id)),
      registry := st.registry ++ [controllerDeviceEntry entry session st.registry.length],
      polling := true,
      stop_listeners := st.stop_listeners ++ [StopListener.stopPolling],
      reset_connection_listener := true,
      scenario_callback := some (controllerDeviceEntry entry session st.registry.length).id }

/-- The state `async_setup_entry` has built after the universal-switch
loop, before `register_services`. -/
def setupMid (entry : ConfigEntry) (session : SHCSession)
    (st : HassState) : HassState :=
  setupSwitchListeners entry session.universal_switches
    (setupPreState entry session st)

/-- The `trigger_scenario` service record registered for `session`. -/
def triggerScenarioService (session : SHCSession) : RegisteredService :=
  { domain := DOMAIN, service := SERVICE_TRIGGER_SCENARIO,
    schema_names := session.scenario_names }

/-! ## Concrete inputs used by the witness theorems -/

/-- Witness config entry. -/
def wEntry : ConfigEntry := ⟨"entry1", "Bosch SHC"⟩

/-- Witness universal switch with a `"Keypad"` service. -/
def wKeypadDevice : SHCUniversalSwitch :=
  { id := "sw1", name := "Light switch", manufacturer := "Bosch",
    device_model := "BSM", parent_device_id := "shc1",
    device_services := [⟨"Keypad"⟩, ⟨"CommunicationQuality"⟩],
    eventtype := "PRESS_SHORT", eventtimestamp := "1700000000",
    keyname := "UPPER_BUTTON" }

/-- Witness universal switch without a `"Keypad"` service. -/
def wNoKeypadDevice : SHCUniversalSwitch :=
  { id := "sw2", name := "Plain switch", manufacturer := "Bosch",
    device_model := "BSM", parent_device_id := "shc1",
    device_services := [⟨"CommunicationQuality"⟩],
    eventtype := "PRESS_LONG", eventtimestamp := "1700000001",
    keyname := "LOWER_BUTTON" }

/-- Witness session: two scenarios share the name `"morning"`. -/
def wSession : SHCSession :=
  { information := { updateState := "NO_UPDATE_AVAILABLE", name := "shc1",
                     mac_address := "64:da:a0:ab:cd:ef", version := "10.1" },
    scenario_names := ["morning", "night"],
    scenarios := [⟨"sc1", "morning"⟩, ⟨"sc2", "morning"⟩, ⟨"sc3", "night"⟩],
    universal_switches := [wKeypadDevice] }

/-- Witness state with the session stored and polling set up, as after a
successful `async_setup_entry`. -/
def wDataState : HassState :=
  { HassState.empty with
      data := [("entry1", wSession)],
      reset_connection_listener := true,
      polling := true,
      stop_listeners := [StopListener.stopPolling],
      scenario_callback := some "device-0" }

/-! ## Helper lemmas -/

/-- The keypad scan skips every service whose id is not `"Keypad"`. -/
theorem keypadScan_go_skip (device : SHCUniversalSwitch)
    (l : List DeviceServiceDef)
    (acc : Option DeviceServiceDef × List (String × String))
    (h : ∀ s ∈ l, s.id ≠ "Keypad") :
    l.foldl
      (fun acc s =>
        if s.id == "Keypad" then (some s, acc.2 ++ [(s.id, device.id)])
        else acc) acc = acc := by
  induction l generalizing acc with
  | nil => rfl
  | cons s rest ih =>
      have hs : (s.id == "Keypad") = false := by
        simpa using h s (List.mem_cons_self s rest)
      simp only [List.foldl_cons, hs, Bool.false_eq_true, if_false]
      exact ih acc (fun t ht => h t (List.mem_cons_of_mem _ ht))

/-- A device with no `"Keypad"` service yields an empty keypad scan. -/
theorem keypadScan_of_no_keypad (device : SHCUniversalSwitch)
    (h : ∀ s ∈ device.device_services, s.id ≠ "Keypad") :
    keypadScan device = (none, []) :=
  keypadScan_go_skip device device.device_services (none, []) h

/-- Invariant of the keypad-scan fold: the final `_service` is a
`"Keypad"` service when set, every installed subscription is the pair
(`"Keypad"`, device id), and no subscription is installed while
`_service` is unset. -/
theorem keypadScan_fold_inv (device : SHCUniversalSwitch)
    (l : List DeviceServiceDef)
    (acc : Option DeviceServiceDef × List (String × String))
    (h1 : acc.1 = none → acc.2 = [])
    (h2 : ∀ s, acc.1 = some s → s.id = "Keypad")
    (h3 : ∀ p ∈ acc.2, p = ("Keypad", device.id)) :
    ((l.foldl
        (fun acc s =>
          if s.id == "Keypad" then (some s, acc.2 ++ [(s.id, device.id)])
          else acc) acc).1 = none →
      (l.foldl
        (fun acc s =>
          if s.id == "Keypad" then (some s, acc.2 ++ [(s.id, device.id)])
          else acc) acc).2 = [])
    ∧ (∀ s, (l.foldl
        (fun acc s =>
          if s.id == "Keypad" then (some s, acc.2 ++ [(s.id, device.id)])
          else acc) acc).1 = some s → s.id = "Keypad")
    ∧ (∀ p ∈ (l.foldl
        (fun acc s =>
          if s.id == "Keypad" then (some s, acc.2 ++ [(s.id, device.id)])
          else acc) acc).2, p = ("Keypad", device.id)) := by
  induction l generalizing acc with
  | nil => exact ⟨h1, h2, h3⟩
  | cons s rest ih =>
      by_cases hs : s.id = "Keypad"
      · have hb : (s.id == "Keypad") = true := by simpa using hs
        simp only [List.foldl_cons, hb, if_true]
        refine ih (some s, acc.2 ++ [(s.id, device.id)]) (by simp) ?_ ?_
        · intro t ht
          simp only [Option.some.injEq] at ht
          rw [← ht]; exact hs
        · intro p hp
          rcases List.mem_append.mp hp with hp | hp
          · exact h3 p hp
          · simp only [List.mem_singleton] at hp
            rw [hp, hs]
      · have hb : (s.id == "Keypad") = false := by simpa using hs
        simp only [List.foldl_cons, hb, Bool.false_eq_true, if_false]
        exact ih acc h1 h2 h3

/-- Specification of `keypadScan` itself. -/
theorem keypadScan_spec (device : SHCUniversalSwitch) :
    ((keypadScan device).1 = none → (keypadScan device).2 = [])
    ∧ (∀ s, (keypadScan device).1 = some s → s.id = "Keypad")
    ∧ (∀ p ∈ (keypadScan device).2, p = ("Keypad", device.id)) :=
  keypadScan_fold_inv device device.device_services (none, [])
    (fun _ => rfl) (by simp) (by simp)

/-- Running `runStopListener` does not alter the listener registry. -/
theorem runStopListener_stop_listeners (st : HassState) (l : StopListener) :
    (runStopListener st l).stop_listeners = st.stop_listeners := by
  cases l with
  | stopPolling => rfl
  | switchStop d s => cases s <;> rfl

/-- A switch stop listener never touches the polling flag. -/
theorem runStopListener_polling_switch (st : HassState) (d : String)
    (s : Option DeviceServiceDef) :
    (runStopListener st (.switchStop d s)).polling = st.polling := by
  cases s <;> rfl

/-- Folding the stop listeners leaves the listener registry unchanged. -/
theorem foldStop_stop_listeners (ls : List StopListener) (st : HassState) :
    (ls.foldl runStopListener st).stop_listeners = st.stop_listeners := by
  induction ls generalizing st with
  | nil => rfl
  | cons l ls ih =>
      rw [List.foldl_cons, ih, runStopListener_stop_listeners]

/-- Folding the stop listeners stops polling exactly when the
`stop_polling` listener is among them. -/
theorem foldStop_polling (ls : List StopListener) (st : HassState) :
    (ls.foldl runStopListener st).polling =
      if StopListener.stopPolling ∈ ls then false else st.polling := by
  induction ls generalizing st with
  | nil => simp
  | cons l ls ih =>
      rw [List.foldl_cons, ih]
      cases l with
      | stopPolling => by_cases h : StopListener.stopPolling ∈ ls <;>
          simp [h, runStopListener]
      | switchStop d s =>
          by_cases h : StopListener.stopPolling ∈ ls
          · simp [h, List.mem_cons]
          · have : StopListener.stopPolling ∈
                (StopListener.switchStop d s :: ls) ↔ False := by
              simp [List.mem_cons, h]
            simp [h, this, runStopListener_polling_switch]

/-- Folding the stop listeners keeps exactly the subscriptions covered by
none of them. -/
theorem foldStop_keypad_subscriptions (ls : List StopListener)
    (st : HassState) :
    (ls.foldl runStopListener st).keypad_subscriptions =
      st.keypad_subscriptions.filter
        (fun p => !(ls.any (fun l => l.covers p))) := by
  induction ls generalizing st with
  | nil => simp
  | cons l ls ih =>
      rw [List.foldl_cons, ih]
      cases l with
      | stopPolling =>
          show st.keypad_subscriptions.filter _ = st.keypad_subscriptions.filter _
          refine List.filter_congr ?_
          intro p _
          simp [StopListener.covers]
      | switchStop d s =>
          cases s with
          | none =>
              show st.keypad_subscriptions.filter _ =
                st.keypad_subscriptions.filter _
              refine List.filter_congr ?_
              intro p _
              simp [StopListener.covers]
          | some svc =>
              show (st.keypad_subscriptions.filter
                  (fun p => !(p.1 == svc.id && p.2 == d))).filter _ =
                st.keypad_subscriptions.filter _
              rw [List.filter_filter]
              refine List.filter_congr ?_
              intro p _
              simp only [List.any_cons, StopListener.covers, Bool.not_or]
              rw [Bool.and_comm]

/-- Effect of the host stop event on the module's state: all once
listeners removed, polling stopped when the `stop_polling` listener was
registered, and exactly the covered subscriptions removed. -/
theorem fire_ha_stop_spec (st : HassState) :
    (fire_ha_stop st).stop_listeners = []
    ∧ (fire_ha_stop st).polling =
        (if StopListener.stopPolling ∈ st.stop_listeners then false
         else st.polling)
    ∧ (fire_ha_stop st).keypad_subscriptions =
        st.keypad_subscriptions.filter
          (fun p => !(st.stop_listeners.any (fun l => l.covers p))) := by
  unfold fire_ha_stop
  refine ⟨?_, ?_, ?_⟩
  · exact foldStop_stop_listeners _ _
  · exact foldStop_polling _ _
  · exact foldStop_keypad_subscriptions _ _

/-- When every subscription is covered by a stop listener, the host stop
event removes them all. -/
theorem fire_ha_stop_covered (st : HassState) (h : Covered st) :
    (fire_ha_stop st).keypad_subscriptions = [] := by
  rcases fire_ha_stop_spec st with ⟨-, -, hsubs⟩
  rw [hsubs, List.filter_eq_nil_iff]
  intro p hp
  rcases h p hp with ⟨l, hl, hc⟩
  have hany : st.stop_listeners.any (fun l => l.covers p) = true :=
    List.any_eq_true.mpr ⟨l, hl, hc⟩
  simp [hany]

/-- One pass of the universal-switch loop: construct the listener and run
its `async_setup`. -/
theorem setupStep_eq (entry : ConfigEntry) (d : SHCUniversalSwitch)
    (st : HassState) :
    ((SwitchDeviceEventListener.init entry d st).1.async_setup
        (SwitchDeviceEventListener.init entry d st).2).2 =
      { st with
          keypad_subscriptions := st.keypad_subscriptions ++ (keypadScan d).2,
          stop_listeners := st.stop_listeners ++ [StopListener.switchStop d.id (keypadScan d).1],
          registry := st.registry ++ [switchDeviceEntry entry d st.registry.length] } :=
  rfl

/-- The switch loop over no devices is the identity. -/
theorem setupSwitchListeners_nil (entry : ConfigEntry) (st : HassState) :
    setupSwitchListeners entry [] st = st :=
  rfl

/-- Unfolding one step of the switch loop. -/
theorem setupSwitchListeners_cons (entry : ConfigEntry)
    (d : SHCUniversalSwitch) (ds : List SHCUniversalSwitch)
    (st : HassState) :
    setupSwitchListeners entry (d :: ds) st =
      setupSwitchListeners entry ds
        (((SwitchDeviceEventListener.init entry d st).1.async_setup
            (SwitchDeviceEventListener.init entry d st).2).2) :=
  rfl

/-- The switch loop only appends subscriptions, stop listeners and
registry entries; every other state component is untouched. -/
theorem setupSwitchListeners_shape (entry : ConfigEntry)
    (ds : List SHCUniversalSwitch) (st : HassState) :
    ∃ subs ls reg,
      setupSwitchListeners entry ds st =
        { st with
            keypad_subscriptions := st.keypad_subscriptions ++ subs,
            stop_listeners := st.stop_listeners ++ ls,
            registry := st.registry ++ reg } := by
  induction ds generalizing st with
  | nil =>
      refine ⟨[], [], [], ?_⟩
      simp [setupSwitchListeners_nil]
  | cons d ds ih =>
      rw [setupSwitchListeners_cons, setupStep_eq]
      rcases ih ({ st with
          keypad_subscriptions := st.keypad_subscriptions ++ (keypadScan d).2,
          stop_listeners := st.stop_listeners ++ [StopListener.switchStop d.id (keypadScan d).1],
          registry := st.registry ++ [switchDeviceEntry entry d st.registry.length] }) with
        ⟨subs, ls, reg, heq⟩
      refine ⟨(keypadScan d).2 ++ subs,
        StopListener.switchStop d.id (keypadScan d).1 :: ls,
        switchDeviceEntry entry d st.registry.length :: reg, ?_⟩
      rw [heq]
      simp [List.append_assoc]

/-- The switch loop preserves coverage of the installed subscriptions. -/
theorem setupSwitchListeners_covered (entry : ConfigEntry)
    (ds : List SHCUniversalSwitch) (st : HassState) (h : Covered st) :
    Covered (setupSwitchListeners entry ds st) := by
  induction ds generalizing st with
  | nil => rw [setupSwitchListeners_nil]; exact h
  | cons d ds ih =>
      rw [setupSwitchListeners_cons, setupStep_eq]
      apply ih
      intro p hp
      simp only at hp
      rcases List.mem_append.mp hp with hp | hp
      · rcases h p hp with ⟨l, hl, hc⟩
        exact ⟨l, List.mem_append_left _ hl, hc⟩
      · obtain ⟨h1, h2, h3⟩ := keypadScan_spec d
        have hpk := h3 p hp
        have hscan : ∃ s, (keypadScan d).1 = some s := by
          cases hs : (keypadScan d).1 with
          | some s => exact ⟨s, rfl⟩
          | none => rw [h1 hs] at hp; cases hp
        rcases hscan with ⟨s, hs⟩
        refine ⟨StopListener.switchStop d.id (keypadScan d).1,
          List.mem_append_right _ (by simp), ?_⟩
        rw [hs, hpk]
        have hsid := h2 s hs
        simp [StopListener.covers, hsid]

/-- Stop listeners registered before the switch loop stay registered. -/
theorem setupSwitchListeners_mem_stop (entry : ConfigEntry)
    (ds : List SHCUniversalSwitch) (st : HassState) (l : StopListener)
    (h : l ∈ st.stop_listeners) :
    l ∈ (setupSwitchListeners entry ds st).stop_listeners := by
  rcases setupSwitchListeners_shape entry ds st with ⟨subs, ls, reg, heq⟩
  rw [heq]
  exact List.mem_append_left _ h

/-- Every universal switch processed by the loop ends up registered in the
device registry with the fields of `SwitchDeviceEventListener.async_setup`. -/
theorem setupSwitchListeners_registry_mem (entry : ConfigEntry)
    (ds : List SHCUniversalSwitch) (st : HassState)
    (d : SHCUniversalSwitch) (h : d ∈ ds) :
    ∃ e ∈ (setupSwitchListeners entry ds st).registry,
      e.config_entry_id = entry.entry_id
      ∧ e.identifiers = [(DOMAIN, d.id)]
      ∧ e.name = some d.name
      ∧ e.manufacturer = some d.manufacturer
      ∧ e.model = some d.device_model
      ∧ e.sw_version = none
      ∧ e.via_device = some (DOMAIN, d.parent_device_id) := by
  induction ds generalizing st with
  | nil => cases h
  | cons d0 ds ih =>
      rw [setupSwitchListeners_cons, setupStep_eq]
      rcases List.mem_cons.mp h with h | h
      · subst h
        rcases setupSwitchListeners_shape entry ds
          ({ st with
              keypad_subscriptions := st.keypad_subscriptions ++ (keypadScan d).2,
              stop_listeners := st.stop_listeners ++ [StopListener.switchStop d.id (keypadScan d).1],
              registry := st.registry ++ [switchDeviceEntry entry d st.registry.length] }) with
          ⟨subs, ls, reg, heq⟩
        rw [heq]
        refine ⟨switchDeviceEntry entry d st.registry.length, ?_,
          rfl, rfl, rfl, rfl, rfl, rfl, rfl⟩
        exact List.mem_append_left _ (List.mem_append_right _ (by simp))
      · exact ih _ h

/-- A state whose data map starts with the entry resolves the lookup. -/
theorem lookupData_of_data_cons (st : HassState) (entry_id : String)
    (session : SHCSession) (rest : List (String × SHCSession))
    (h : st.data = (entry_id, session) :: rest) :
    st.lookupData entry_id = some session := by
  unfold HassState.lookupData
  rw [h, List.find?_cons_of_pos]
  · rfl
  · simp

/-- The data map after the switch loop of a successful setup. -/
theorem setupMid_data (entry : ConfigEntry) (session : SHCSession)
    (st : HassState) :
    (setupMid entry session st).data =
      (entry.entry_id, session) ::
        st.data.filter (fun p => !(p.1 == entry.entry_id)) := by
  unfold setupMid
  rcases setupSwitchListeners_shape entry session.universal_switches
    (setupPreState entry session st) with ⟨subs, ls, reg, heq⟩
  rw [heq]
  rfl

/-- Master characterisation of a successful `async_setup_entry`: it
returns `True` and the final state is the post-loop state with the single
`trigger_scenario` service appended. -/
theorem async_setup_entry_ok_eq (entry : ConfigEntry)
    (session : SHCSession) (st : HassState) :
    async_setup_entry entry (.ok session) st =
      ({ setupMid entry session st with
           services := (setupMid entry session st).services ++
             [triggerScenarioService session] }, .ok true) := by
  have hlook : (setupMid entry session st).lookupData entry.entry_id =
      some session :=
    lookupData_of_data_cons _ _ _ _ (setupMid_data entry session st)
  have hstart : async_setup_entry entry (.ok session) st =
      (match register_services entry (setupMid entry session st) with
       | .error e => (setupMid entry session st, .error (SetupError.pyError e))
       | .ok stf => (stf, .ok true)) := rfl
  rw [hstart]
  unfold register_services
  rw [hlook]
  rfl

/-! ## Claim theorems (first group) -/

/-- C1: if constructing the `SHCSession` raises any exception of the
client library's hierarchy, `async_setup_entry` raises
`ConfigEntryNotReady`, the session is not stored in `hass.data[DOMAIN]`,
and no device is registered. -/
theorem setup_entry_client_error_not_ready (entry : ConfigEntry)
    (e : SHCError) (st : HassState) :
    (async_setup_entry entry (.error e) st).2 =
        .error SetupError.configEntryNotReady
    ∧ (async_setup_entry entry (.error e) st).1.data = st.data
    ∧ (async_setup_entry entry (.error e) st).1.registry = st.registry :=
  ⟨rfl, rfl, rfl⟩

/-- C5: the scenario-trigger callback fires exactly one
`EVENT_BOSCH_SHC_SCENARIO_TRIGGER` bus event, whose payload carries the
controller's registry id plus the three callback arguments unchanged, and
changes nothing else. -/
theorem scenario_trigger_translation (device_id scenario_id name
    last_time_triggered : String) (st : HassState) :
    _async_scenario_trigger device_id scenario_id name last_time_triggered
        st =
      { st with bus_events := st.bus_events ++
          [⟨EVENT_BOSCH_SHC_SCENARIO_TRIGGER,
            [(ATTR_DEVICE_ID, some device_id),
             (ATTR_ID, some scenario_id),
             (ATTR_NAME, some name),
             (ATTR_LAST_TIME_TRIGGERED, some last_time_triggered)]⟩] } :=
  rfl

/-- C2: the input-event handler fires an `EVENT_BOSCH_SHC_CLICK` bus event
if and only if the device's event-type name is a member of the supported
set, and when it fires the payload is the one-to-one field mapping
(device_id, id, name, last_time_triggered, button, click_type) with no
transformation; otherwise the state is unchanged. -/
theorem input_events_handler_translation (supported : List String)
    (l : SwitchDeviceEventListener) (st : HassState) :
    SwitchDeviceEventListener._async_input_events_handler supported l st =
      if l._device.eventtype ∈ supported then
        { st with bus_events := st.bus_events ++
            [⟨EVENT_BOSCH_SHC_CLICK,
              [(ATTR_DEVICE_ID, l.device_id),
               (ATTR_ID, some l._device.id),
               (ATTR_NAME, some l._device.name),
               (ATTR_LAST_TIME_TRIGGERED, some l._device.eventtimestamp),
               (ATTR_BUTTON, some l._device.keyname),
               (ATTR_CLICK_TYPE, some l._device.eventtype)]⟩] }
      else st := by
  unfold SwitchDeviceEventListener._async_input_events_handler
  by_cases h : l._device.eventtype ∈ supported
  · rw [if_pos h]
    have hb : supported.contains l._device.eventtype = true :=
      List.elem_iff.mpr h
    rw [hb]
    rfl
  · rw [if_neg h]
    have hb : supported.contains l._device.eventtype = false := by
      by_contra hc
      exact h (List.elem_iff.mp (eq_true_of_ne_false hc))
    rw [hb]
    rfl

/-- C10: constructing a `SwitchDeviceEventListener` subscribes a callback
only for a `"Keypad"` device service; for a universal switch without one,
`_service` stays `None`, no subscription is installed, and every later
`shutdown` call — including the one run by the host stop event — fails
with an `AttributeError`. -/
theorem listener_shutdown_requires_keypad (entry : ConfigEntry)
    (device : SHCUniversalSwitch) (st : HassState)
    (h : ∀ s ∈ device.device_services, s.id ≠ "Keypad") :
    ((SwitchDeviceEventListener.init entry device st).1)._service = none
    ∧ (SwitchDeviceEventListener.init entry device
        st).2.keypad_subscriptions = st.keypad_subscriptions
    ∧ SwitchDeviceEventListener.shutdown
        (SwitchDeviceEventListener.init entry device st).1
        (SwitchDeviceEventListener.init entry device st).2 =
        .error PyError.attributeError
    ∧ SwitchDeviceEventListener._handle_ha_stop
        (SwitchDeviceEventListener.init entry device st).1
        (SwitchDeviceEventListener.init entry device st).2 =
        .error PyError.attributeError := by
  have hk := keypadScan_of_no_keypad device h
  unfold SwitchDeviceEventListener.init
  rw [hk]
  refine ⟨rfl, by simp, rfl, rfl⟩

/-! ## More helper lemmas -/

/-- Predicate `allExecutor` distributes over append. -/
theorem allExecutor_append (a b : List Action) :
    allExecutor (a ++ b) = (allExecutor a && allExecutor b) :=
  List.all_append

/-- Folding the stop listeners only appends executor jobs to the trace. -/
theorem foldStop_actions_allExecutor (ls : List StopListener)
    (st : HassState) (h : allExecutor st.actions = true) :
    allExecutor (ls.foldl runStopListener st).actions = true := by
  induction ls generalizing st with
  | nil => exact h
  | cons l ls ih =>
      rw [List.foldl_cons]
      apply ih
      cases l with
      | stopPolling =>
          show allExecutor (st.actions ++ [Action.executorJob .stopPolling]) = true
          rw [allExecutor_append, h]
          rfl
      | switchStop d s => cases s with
        | none => exact h
        | some svc => exact h

/-- Filtering an entry out of the data map makes its lookup fail. -/
theorem find?_filter_out (l : List (String × SHCSession)) (eid : String) :
    (l.filter (fun p => !(p.1 == eid))).find? (fun p => p.1 == eid) =
      none := by
  rw [List.find?_eq_none]
  intro x hx
  have hne := (List.mem_filter.mp hx).2
  simpa using hne

/-- The final state of a successful setup, compared with `setupMid`:
only the service list differs. -/
theorem async_setup_entry_ok_fields (entry : ConfigEntry)
    (session : SHCSession) (st : HassState) :
    (async_setup_entry entry (.ok session) st).1.stop_listeners =
        (setupMid entry session st).stop_listeners
    ∧ (async_setup_entry entry (.ok session) st).1.keypad_subscriptions =
        (setupMid entry session st).keypad_subscriptions
    ∧ (async_setup_entry entry (.ok session) st).1.registry =
        (setupMid entry session st).registry
    ∧ (async_setup_entry entry (.ok session) st).1.data =
        (setupMid entry session st).data
    ∧ (async_setup_entry entry (.ok session) st).1.actions =
        (setupMid entry session st).actions
    ∧ (async_setup_entry entry (.ok session) st).1.services =
        (setupMid entry session st).services ++
          [triggerScenarioService session] := by
  rw [async_setup_entry_ok_eq]
  exact ⟨rfl, rfl, rfl, rfl, rfl, rfl⟩

/-! ## Claim theorems (second group) -/

/-- C4: after a successful `async_setup_entry` from a fresh host state,
firing the host stop event stops the session's polling loop and leaves no
keypad-callback subscription and no stop listener installed by this
module. -/
theorem ha_stop_stops_polling_and_unsubscribes (entry : ConfigEntry)
    (session : SHCSession) :
    (fire_ha_stop
        (async_setup_entry entry (.ok session) HassState.empty).1).polling =
        false
    ∧ (fire_ha_stop
        (async_setup_entry entry (.ok session)
          HassState.empty).1).keypad_subscriptions = []
    ∧ (fire_ha_stop
        (async_setup_entry entry (.ok session)
          HassState.empty).1).stop_listeners = [] := by
  obtain ⟨hls, hsubs, -, -, -, -⟩ :=
    async_setup_entry_ok_fields entry session HassState.empty
  have hmem : StopListener.stopPolling ∈
      (async_setup_entry entry (.ok session)
        HassState.empty).1.stop_listeners := by
    rw [hls]
    unfold setupMid
    apply setupSwitchListeners_mem_stop
    show StopListener.stopPolling ∈
      (setupPreState entry session HassState.empty).stop_listeners
    simp [setupPreState, HassState.empty]
  have hcovmid : Covered (setupMid entry session HassState.empty) := by
    unfold setupMid
    apply setupSwitchListeners_covered
    intro p hp
    simp [setupPreState, HassState.empty] at hp
  have hcov : Covered (async_setup_entry entry (.ok session)
      HassState.empty).1 := by
    intro p hp
    rw [hsubs] at hp
    rcases hcovmid p hp with ⟨l, hl, hc⟩
    rw [hls]
    exact ⟨l, hl, hc⟩
  obtain ⟨hA, hB, -⟩ :=
    fire_ha_stop_spec (async_setup_entry entry (.ok session)
      HassState.empty).1
  refine ⟨?_, fire_ha_stop_covered _ hcov, hA⟩
  rw [hB, if_pos hmem]

/-- C6: a successful `async_setup_entry` registers the controller with
manufacturer `"Bosch"`, model `"SmartHomeController"`, its MAC connection,
identifier `(DOMAIN, controller name)` and the software version from the
session information, and registers each universal switch with identifier
`(DOMAIN, device id)` linked via its parent device. -/
theorem device_registry_population (entry : ConfigEntry)
    (session : SHCSession) :
    (∃ e ∈ (async_setup_entry entry (.ok session)
          HassState.empty).1.registry,
        e.config_entry_id = entry.entry_id
        ∧ e.connections =
            [(CONNECTION_NETWORK_MAC, format_mac session.information.mac_address)]
        ∧ e.identifiers = [(DOMAIN, session.information.name)]
        ∧ e.manufacturer = some "Bosch"
        ∧ e.name = some entry.title
        ∧ e.model = some "SmartHomeController"
        ∧ e.sw_version = some session.information.version)
    ∧ ∀ d ∈ session.universal_switches,
        ∃ e ∈ (async_setup_entry entry (.ok session)
            HassState.empty).1.registry,
          e.config_entry_id = entry.entry_id
          ∧ e.identifiers = [(DOMAIN, d.id)]
          ∧ e.name = some d.name
          ∧ e.manufacturer = some d.manufacturer
          ∧ e.model = some d.device_model
          ∧ e.via_device = some (DOMAIN, d.parent_device_id) := by
  obtain ⟨-, -, hreg, -, -, -⟩ :=
    async_setup_entry_ok_fields entry session HassState.empty
  constructor
  · rcases setupSwitchListeners_shape entry session.universal_switches
      (setupPreState entry session HassState.empty) with
      ⟨subs, ls, reg, heq⟩
    rw [hreg]
    unfold setupMid
    rw [heq]
    refine ⟨controllerDeviceEntry entry session
        HassState.empty.registry.length, ?_,
      rfl, rfl, rfl, rfl, rfl, rfl, rfl⟩
    apply List.mem_append_left
    simp [setupPreState, HassState.empty]
  · intro d hd
    rw [hreg]
    unfold setupMid
    rcases setupSwitchListeners_registry_mem entry
        session.universal_switches (setupPreState entry session
          HassState.empty) d hd with
      ⟨e, he, h1, h2, h3, h4, h5, h6, h7⟩
    exact ⟨e, he, h1, h2, h3, h4, h5, h7⟩

/-- C3: the module registers exactly one service, `trigger_scenario`, and
for every invocation whose data passes the schema the handler looks up the
scenarios bearing the requested name among the session's scenarios and
defers their `trigger` method to the executor. -/
theorem single_service_trigger_scenario (entry : ConfigEntry)
    (session : SHCSession) (name : String)
    (h : (triggerScenarioService session).schemaAccepts name = true) :
    (async_setup_entry entry (.ok session) HassState.empty).1.services =
        [triggerScenarioService session]
    ∧ ∃ st', scenario_service_call entry name
          (async_setup_entry entry (.ok session) HassState.empty).1 =
            .ok st'
        ∧ st'.actions =
            (async_setup_entry entry (.ok session)
              HassState.empty).1.actions ++
              (session.scenarios.filter (fun sc => sc.name == name)).map
                (fun sc => Action.executorJob (.scenarioTrigger sc)) := by
  obtain ⟨-, -, -, hdata, -, hsvcs⟩ :=
    async_setup_entry_ok_fields entry session HassState.empty
  have hlook : (async_setup_entry entry (.ok session)
      HassState.empty).1.lookupData entry.entry_id = some session := by
    apply lookupData_of_data_cons _ _ _
      (HassState.empty.data.filter (fun p => !(p.1 == entry.entry_id)))
    rw [hdata]
    exact setupMid_data entry session HassState.empty
  constructor
  · rw [hsvcs]
    rcases setupSwitchListeners_shape entry session.universal_switches
      (setupPreState entry session HassState.empty) with
      ⟨subs, ls, reg, heq⟩
    unfold setupMid
    rw [heq]
    rfl
  · refine ⟨{ (async_setup_entry entry (.ok session) HassState.empty).1 with
        actions := (async_setup_entry entry (.ok session)
            HassState.empty).1.actions ++
          (session.scenarios.filter (fun sc => sc.name == name)).map
            (fun sc => Action.executorJob (.scenarioTrigger sc)) },
      ?_, rfl⟩
    unfold scenario_service_call
    rw [hlook]

/-- C7: every blocking client-library call the module makes — the
`SHCSession` construction, `start_polling`, `stop_polling` and
`scenario.trigger` — is deferred through `hass.async_add_executor_job`;
no direct blocking call ever enters the trace. -/
theorem blocking_calls_deferred (entry : ConfigEntry)
    (ctor : Except SHCError SHCSession) (session : SHCSession)
    (name : String) (results : List Bool) (st : HassState)
    (h : allExecutor st.actions = true) :
    allExecutor (async_setup_entry entry ctor st).1.actions = true
    ∧ allExecutor (fire_ha_stop st).actions = true
    ∧ (∀ st', scenario_service_call entry name st = .ok st' →
        allExecutor st'.actions = true)
    ∧ (∀ st' ok, async_unload_entry entry results st = .ok (st', ok) →
        allExecutor st'.actions = true)
    ∧ (async_setup_entry entry (.ok session) st).1.actions =
        st.actions ++ [Action.executorJob .shcSessionCtor,
          Action.executorJob .startPolling] := by
  have hact : ∀ session', (async_setup_entry entry (.ok session')
      st).1.actions = st.actions ++ [Action.executorJob .shcSessionCtor,
        Action.executorJob .startPolling] := by
    intro session'
    obtain ⟨-, -, -, -, hacts, -⟩ :=
      async_setup_entry_ok_fields entry session' st
    rw [hacts]
    unfold setupMid
    rcases setupSwitchListeners_shape entry session'.universal_switches
      (setupPreState entry session' st) with ⟨subs, ls, reg, heq⟩
    rw [heq]
    show (st.actions ++ [Action.executorJob .shcSessionCtor]) ++
        [Action.executorJob .startPolling] = _
    rw [List.append_assoc]
    rfl
  refine ⟨?_, ?_, ?_, ?_, hact session⟩
  · cases ctor with
    | error e =>
        show allExecutor (st.actions ++
          [Action.executorJob .shcSessionCtor]) = true
        rw [allExecutor_append, h]
        rfl
    | ok s =>
        rw [hact s, allExecutor_append, h]
        rfl
  · unfold fire_ha_stop
    exact foldStop_actions_allExecutor _ _ h
  · intro st' h'
    unfold scenario_service_call at h'
    cases hl : st.lookupData entry.entry_id with
    | none => rw [hl] at h'; cases h'
    | some ses =>
        rw [hl] at h'
        cases h'
        have hmap : allExecutor
            ((ses.scenarios.filter (fun sc => sc.name == name)).map
              (fun sc => Action.executorJob (.scenarioTrigger sc))) =
            true := by
          unfold allExecutor
          rw [List.all_eq_true]
          intro a ha
          rcases List.mem_map.mp ha with ⟨sc, -, rfl⟩
          rfl
        show allExecutor (st.actions ++
          (ses.scenarios.filter (fun sc => sc.name == name)).map
            (fun sc => Action.executorJob (.scenarioTrigger sc))) = true
        rw [allExecutor_append, h, hmap]
        rfl
  · intro st' ok h'
    unfold async_unload_entry at h'
    cases hl : st.lookupData entry.entry_id with
    | none => rw [hl] at h'; cases h'
    | some ses =>
        rw [hl] at h'
        cases hrcl : st.reset_connection_listener with
        | false =>
            cases hall : results.all id with
            | false =>
                simp [hrcl, hall] at h'
                obtain ⟨h1, -⟩ := h'
                cases h1
                exact h
            | true =>
                simp [hrcl, hall] at h'
                obtain ⟨h1, -⟩ := h'
                cases h1
                exact h
        | true =>
            cases hall : results.all id with
            | false =>
                simp [hrcl, hall] at h'
                obtain ⟨h1, -⟩ := h'
                cases h1
                show allExecutor (st.actions ++
                  [Action.executorJob .stopPolling]) = true
                rw [allExecutor_append, h]
                rfl
            | true =>
                simp [hrcl, hall] at h'
                obtain ⟨h1, -⟩ := h'
                cases h1
                show allExecutor (st.actions ++
                  [Action.executorJob .stopPolling]) = true
                rw [allExecutor_append, h]
                rfl

/-- C8: `scenario_service_call` completes without error, defers `trigger`
for every scenario of the session whose name equals the requested name
(not only the first match), and triggers nothing when no scenario bears
that name. -/
theorem scenario_service_all_matches (entry : ConfigEntry)
    (session : SHCSession) (name : String) (st : HassState)
    (h : st.lookupData entry.entry_id = some session) :
    ∃ st', scenario_service_call entry name st = .ok st'
      ∧ (∀ sc ∈ session.scenarios, sc.name = name →
          Action.executorJob (.scenarioTrigger sc) ∈ st'.actions)
      ∧ ((∀ sc ∈ session.scenarios, sc.name ≠ name) →
          st'.actions = st.actions) := by
  refine ⟨{ st with actions := st.actions ++ (session.scenarios.filter (fun sc => sc.name == name)).map (fun sc => Action.executorJob (.scenarioTrigger sc)) },
    ?_, ?_, ?_⟩
  · unfold scenario_service_call
    rw [h]
  · intro sc hsc hname
    exact List.mem_append_right _
      (List.mem_map.mpr ⟨sc,
        List.mem_filter.mpr ⟨hsc, by simp [hname]⟩, rfl⟩)
  · intro hnone
    have hfil : session.scenarios.filter (fun sc => sc.name == name) =
        [] := by
      rw [List.filter_eq_nil_iff]
      intro sc hsc
      simp [hnone sc hsc]
    show st.actions ++ _ = st.actions
    rw [hfil]
    simp

/-- C9: `async_unload_entry` returns the conjunction of the platform
unload results, removes the session from `hass.data[DOMAIN]` exactly when
they all succeed, leaves it stored otherwise, and in both cases
unsubscribes the scenario callback and stops polling. -/
theorem unload_entry_spec (entry : ConfigEntry) (session : SHCSession)
    (results : List Bool) (st : HassState)
    (h : st.lookupData entry.entry_id = some session)
    (h2 : st.reset_connection_listener = true) :
    ∃ st', async_unload_entry entry results st = .ok (st', results.all id)
      ∧ (results.all id = true →
          st'.lookupData entry.entry_id = none)
      ∧ (results.all id = false →
          st'.lookupData entry.entry_id = some session)
      ∧ st'.scenario_callback = none
      ∧ st'.polling = false := by
  cases hall : results.all id with
  | true =>
      refine ⟨{ st with
          scenario_callback := none,
          stop_listeners := st.stop_listeners.filter (fun l => decide (l ≠ StopListener.stopPolling)),
          reset_connection_listener := false,
          actions := st.actions ++ [Action.executorJob .stopPolling],
          polling := false,
          data := st.data.filter (fun p => !(p.1 == entry.entry_id)) },
        ?_, ?_, ?_, rfl, rfl⟩
      · unfold async_unload_entry
        rw [h]
        simp [h2, hall]
      · intro _
        show ((st.data.filter (fun p => !(p.1 == entry.entry_id))).find?
          (fun p => p.1 == entry.entry_id)).map (·.2) = none
        rw [find?_filter_out]
        rfl
      · intro hfalse
        cases hfalse
  | false =>
      refine ⟨{ st with
          scenario_callback := none,
          stop_listeners := st.stop_listeners.filter (fun l => decide (l ≠ StopListener.stopPolling)),
          reset_connection_listener := false,
          actions := st.actions ++ [Action.executorJob .stopPolling],
          polling := false },
        ?_, ?_, ?_, rfl, rfl⟩
      · unfold async_unload_entry
        rw [h]
        simp [h2, hall]
      · intro htrue
        cases htrue
      · intro _
        exact h

/-! ## Witness theorems -/

/-- C10 witness at a concrete switch without a `"Keypad"` service. -/
theorem listener_shutdown_requires_keypad_witness :
    ((SwitchDeviceEventListener.init wEntry wNoKeypadDevice
        HassState.empty).1)._service = none
    ∧ (SwitchDeviceEventListener.init wEntry wNoKeypadDevice
        HassState.empty).2.keypad_subscriptions =
        HassState.empty.keypad_subscriptions
    ∧ SwitchDeviceEventListener.shutdown
        (SwitchDeviceEventListener.init wEntry wNoKeypadDevice
          HassState.empty).1
        (SwitchDeviceEventListener.init wEntry wNoKeypadDevice
          HassState.empty).2 = .error PyError.attributeError
    ∧ SwitchDeviceEventListener._handle_ha_stop
        (SwitchDeviceEventListener.init wEntry wNoKeypadDevice
          HassState.empty).1
        (SwitchDeviceEventListener.init wEntry wNoKeypadDevice
          HassState.empty).2 = .error PyError.attributeError :=
  listener_shutdown_requires_keypad wEntry wNoKeypadDevice HassState.empty
    (by decide)

/-- C3 witness at a concrete session and an accepted scenario name. -/
theorem single_service_trigger_scenario_witness :
    (async_setup_entry wEntry (.ok wSession) HassState.empty).1.services =
        [triggerScenarioService wSession]
    ∧ ∃ st', scenario_service_call wEntry "morning"
          (async_setup_entry wEntry (.ok wSession) HassState.empty).1 =
            .ok st'
        ∧ st'.actions =
            (async_setup_entry wEntry (.ok wSession)
              HassState.empty).1.actions ++
              (wSession.scenarios.filter
                (fun sc => sc.name == "morning")).map
                (fun sc => Action.executorJob (.scenarioTrigger sc)) :=
  single_service_trigger_scenario wEntry wSession "morning" (by decide)

/-- C6 witness: the concrete keypad switch of `wSession` is registered. -/
theorem device_registry_population_witness :
    ∃ e ∈ (async_setup_entry wEntry (.ok wSession)
        HassState.empty).1.registry,
      e.config_entry_id = wEntry.entry_id
      ∧ e.identifiers = [(DOMAIN, wKeypadDevice.id)]
      ∧ e.name = some wKeypadDevice.name
      ∧ e.manufacturer = some wKeypadDevice.manufacturer
      ∧ e.model = some wKeypadDevice.device_model
      ∧ e.via_device = some (DOMAIN, wKeypadDevice.parent_device_id) :=
  (device_registry_population wEntry wSession).2 wKeypadDevice (by decide)

/-- C7 witness at concrete inputs. -/
theorem blocking_calls_deferred_witness :
    allExecutor (async_setup_entry wEntry (.ok wSession)
        HassState.empty).1.actions = true
    ∧ allExecutor (fire_ha_stop HassState.empty).actions = true
    ∧ (∀ st', scenario_service_call wEntry "morning" HassState.empty =
        .ok st' → allExecutor st'.actions = true)
    ∧ (∀ st' ok, async_unload_entry wEntry [true] HassState.empty =
        .ok (st', ok) → allExecutor st'.actions = true)
    ∧ (async_setup_entry wEntry (.ok wSession)
        HassState.empty).1.actions =
        HassState.empty.actions ++ [Action.executorJob .shcSessionCtor,
          Action.executorJob .startPolling] :=
  blocking_calls_deferred wEntry (.ok wSession) wSession "morning" [true]
    HassState.empty (by decide)

/-- C8 witness: two scenarios named `"morning"` are both triggered. -/
theorem scenario_service_all_matches_witness :
    ∃ st', scenario_service_call wEntry "morning" wDataState = .ok st'
      ∧ (∀ sc ∈ wSession.scenarios, sc.name = "morning" →
          Action.executorJob (.scenarioTrigger sc) ∈ st'.actions)
      ∧ ((∀ sc ∈ wSession.scenarios, sc.name ≠ "morning") →
          st'.actions = wDataState.actions) :=
  scenario_service_all_matches wEntry wSession "morning" wDataState
    (by decide)

/-- C9 witness: one failing platform unload keeps the session stored. -/
theorem unload_entry_spec_witness :
    ∃ st', async_unload_entry wEntry [true, false] wDataState =
        .ok (st', [true, false].all id)
      ∧ ([true, false].all id = true →
          st'.lookupData wEntry.entry_id = none)
      ∧ ([true, false].all id = false →
          st'.lookupData wEntry.entry_id = some wSession)
      ∧ st'.scenario_callback = none
      ∧ st'.polling = false :=
  unload_entry_spec wEntry wSession [true, false] wDataState (by decide)
    (by decide)

end BoschSHC
